import Mathlib

/-!
Verification of the agent assembly and retrieval core of the
`agno-smart-assistant` backend.

The Python source under `backend/` is shallowly embedded here:
dataclasses become structures, factory functions become Lean functions,
and a Python `raise` is modelled as the `Except.error` branch carrying the
exception message.  External library constructors (the `agno` framework's
`Agent`, `SqliteDb`, `LanceDb`, `OpenAIChat`, `Claude`, ...) are modelled
as records holding exactly the arguments the backend passes to them.
-/

namespace AgnoAssistant

/-! ## Configuration data model (`backend/config/settings.py`, `constants.py`) -/

def APP_NAME : String := "Agno Smart Assistant"

def APP_VERSION : String := "1.0.0"

def APP_DESCRIPTION : String := "Multi-agent AI assistant powered by Agno"

def DEFAULT_DB_FILE : String := "agno.db"

def DEFAULT_VECTOR_DB_FILE : String := "vector.db"

def DEFAULT_MODEL_ID : String := "gpt-4"

def DEFAULT_MCP_URL : String := "https://docs.agno.com/mcp"

def DEFAULT_PORT : Nat := 8000

def DEFAULT_HOST : String := "0.0.0.0"

def DEFAULT_LOG_LEVEL : String := "info"

/-- `OpenAIConfig` dataclass: holds the OpenAI API key (empty when unset). -/
structure OpenAIConfig where
  api_key : String
  deriving Repr, DecidableEq

/-- `AnthropicConfig` dataclass: holds the Anthropic API key (empty when unset). -/
structure AnthropicConfig where
  api_key : String
  deriving Repr, DecidableEq

/-- `ModelConfig` dataclass: selected provider tag and default model id. -/
structure ModelConfig where
  provider : String
  model_id : String
  deriving Repr, DecidableEq

/-- `DatabaseConfig` dataclass: conversation and vector database file paths. -/
structure DatabaseConfig where
  db_file : String
  vector_db_file : String
  deriving Repr, DecidableEq

/-- `AgentConfig` dataclass: legacy model id and the MCP endpoint URL. -/
structure AgentConfig where
  model_id : String
  mcp_url : String
  deriving Repr, DecidableEq

/-- `ServerConfig` dataclass: HTTP server settings. -/
structure ServerConfig where
  host : String
  port : Nat
  reload : Bool
  log_level : String
  deriving Repr, DecidableEq

/-- `AppConfig` dataclass: the complete application configuration. -/
structure AppConfig where
  name : String := APP_NAME
  version : String := APP_VERSION
  description : String := APP_DESCRIPTION
  openai : OpenAIConfig
  anthropic : AnthropicConfig
  model : ModelConfig
  database : DatabaseConfig
  agent : AgentConfig
  server : ServerConfig
  deriving Repr, DecidableEq

/-- The credential validation performed at the end of `AppConfig.__post_init__`:
Python raises `ValueError` when both API keys are falsy (empty); an empty
string is the only falsy string, so the guard is `key = ""` for both keys.
A raise is modelled as `Except.error` carrying the message. -/
def AppConfig.validateKeys (c : AppConfig) : Except String AppConfig :=
  if c.openai.api_key = "" ∧ c.anthropic.api_key = "" then
    Except.error ("❌ No API key configured.\n" ++
      "   Set either OPENAI_API_KEY or ANTHROPIC_API_KEY\n" ++
      "   Current provider: " ++ c.model.provider)
  else
    Except.ok c

/-! ## Provider strategy (`backend/config/model_provider.py`) -/

/-- A concrete model client as constructed by `get_model`: either
`OpenAIChat(id=..., api_key=...)` or `Claude(id=..., api_key=...)`. -/
inductive ModelClient where
  | openAIChat (id : String) (api_key : String)
  | claude (id : String) (api_key : String)
  deriving Repr, DecidableEq

/-- Python's `x or default` applied to an `Optional[str]`: both `None` and
the empty string (the only falsy string) fall back to the default. -/
def orDefault (x : Option String) (d : String) : String :=
  match x with
  | none => d
  | some v => if v = "" then d else v

/-- `get_model(provider=None, model_id=None)`: resolves the effective
provider and model id with `or`-fallback to the config, then branches on
the provider tag; an unknown tag raises `ValueError` with a message naming
the offending value and the supported set. -/
def get_model (provider : Option String) (model_id : Option String)
    (config : AppConfig) : Except String ModelClient :=
  let final_provider := orDefault provider config.model.provider
  let final_model_id := orDefault model_id config.model.model_id
  if final_provider = "openai" then
    Except.ok (ModelClient.openAIChat final_model_id config.openai.api_key)
  else if final_provider = "anthropic" then
    Except.ok (ModelClient.claude final_model_id config.anthropic.api_key)
  else
    Except.error ("❌ Unsupported provider: " ++ final_provider ++
      "\n   Supported: 'openai', 'anthropic'")

/-! ## External `agno` objects, modelled as the arguments the backend passes -/

/-- `SqliteDb(db_file=..., session_table=...)`; `session_table` is omitted by
the direct agent factories and supplied by `BaseAgentBuilder.build`. -/
structure SqliteDb where
  db_file : String
  session_table : Option String := none
  deriving Repr, DecidableEq

/-- A tool attached to an agent: `MCPTools(transport=..., url=...)` from the
research agent, or an arbitrary caller-supplied tool. -/
inductive Tool where
  | mcpTools (transport : String) (url : String)
  | custom (tag : String)
  deriving Repr, DecidableEq

/-- `SearchType` enumeration of the LanceDB vector store. -/
inductive SearchType where
  | vector
  | keyword
  | hybrid
  deriving Repr, DecidableEq

/-- `OpenAIEmbedder(id=...)`. -/
structure OpenAIEmbedder where
  id : String
  deriving Repr, DecidableEq

/-- `LanceDb(uri=..., table_name=..., search_type=..., embedder=...)`. -/
structure LanceDb where
  uri : String
  table_name : String
  search_type : SearchType
  embedder : OpenAIEmbedder
  deriving Repr, DecidableEq

/-- `Knowledge(vector_db=...)` as constructed by the assist agent and the
knowledge loader. -/
structure Knowledge where
  vector_db : LanceDb
  deriving Repr, DecidableEq

/-- Caller-supplied opaque vector database override (`Any` in the source). -/
structure VectorDb where
  tag : String
  deriving Repr, DecidableEq

/-- Caller-supplied opaque knowledge-base override (`Any` in the source). -/
structure KnowledgeBase where
  tag : String
  deriving Repr, DecidableEq

/-- Caller-supplied opaque embeddings override (`Any` in the source). -/
structure Embedder where
  tag : String
  deriving Repr, DecidableEq

/-- Caller-supplied opaque memory configuration (`dict` in the source). -/
structure MemoryConfig where
  tag : String
  deriving Repr, DecidableEq

/-- The `agno` `Agent` as configured by this backend: constructor keyword
arguments the backend passes, plus the attributes `BaseAgentBuilder.build`
attaches after construction.  A field is `none` exactly when the backend
leaves that argument unset. -/
structure Agent where
  id : Option String := none
  name : String
  model : ModelClient
  db : SqliteDb
  tools : Option (List Tool) := none
  instructions : List String
  description : String
  knowledge : Option Knowledge := none
  add_history_to_context : Option Bool := none
  num_history_runs : Option Nat := none
  add_datetime_to_context : Option Bool := none
  markdown : Option Bool := none
  add_session_state_to_context : Option Bool := none
  add_dependencies_to_context : Option Bool := none
  add_memories_to_context : Option Bool := none
  vector_db : Option VectorDb := none
  knowledge_base : Option KnowledgeBase := none
  embeddings : Option Embedder := none
  users : Option (List String) := none
  memory_config : Option MemoryConfig := none
  deriving Repr, DecidableEq

/-! ## Agent descriptor builder (`backend/agents/base_agent.py`) -/

/-- The required arguments of `BaseAgentBuilder.build`. -/
structure BuildRequired where
  name : String
  description : String
  instructions : List String
  db_table : String
  deriving Repr, DecidableEq

/-- The optional arguments of `BaseAgentBuilder.build`, each defaulting to
`None` (the behaviour flags default to `True` as in the source). -/
structure BuildOverrides where
  model : Option ModelClient := none
  db : Option SqliteDb := none
  tools : Option (List Tool) := none
  users : Option (List String) := none
  vector_db : Option VectorDb := none
  knowledge_base : Option KnowledgeBase := none
  embeddings : Option Embedder := none
  add_session_state_to_context : Bool := true
  add_dependencies_to_context : Bool := true
  add_memories_to_context : Bool := true
  memory_config : Option MemoryConfig := none
  deriving Repr, DecidableEq

/-- Python's `if x is not None: agent.field = x` attribute assignment:
the attribute keeps its current value when the override is `None`. -/
def setIfSome {α : Type} (cur new : Option α) : Option α :=
  if new.isSome then new else cur

/-- The tail of `BaseAgentBuilder.build`: the five `if ... is not None`
attribute assignments performed on the freshly constructed agent. -/
def attachOptionals (agent : Agent) (ov : BuildOverrides) : Agent :=
  { agent with
    vector_db := setIfSome agent.vector_db ov.vector_db
    knowledge_base := setIfSome agent.knowledge_base ov.knowledge_base
    embeddings := setIfSome agent.embeddings ov.embeddings
    users := setIfSome agent.users ov.users
    memory_config := setIfSome agent.memory_config ov.memory_config }

namespace BaseAgentBuilder

/-- `BaseAgentBuilder.build`: merges each optional argument against its
default (`get_model()` for the model, a fresh `SqliteDb` on the configured
file for the store, the empty list for tools) with `is not None` as the
only test, constructs the `Agent`, then attaches the remaining non-`None`
optionals.  The only raise reachable from `build` itself is the one inside
`get_model` (taken when no model override is given). -/
def build (req : BuildRequired) (ov : BuildOverrides) (config : AppConfig) :
    Except String Agent :=
  match (match ov.model with
         | some m => Except.ok m
         | none => get_model none none config : Except String ModelClient) with
  | Except.error e => Except.error e
  | Except.ok final_model =>
    let final_db : SqliteDb :=
      match ov.db with
      | some d => d
      | none => { db_file := config.database.db_file, session_table := some req.db_table }
    let final_tools : List Tool :=
      match ov.tools with
      | some t => t
      | none => []
    let agent : Agent :=
      { name := req.name
        model := final_model
        db := final_db
        tools := some final_tools
        instructions := req.instructions
        description := req.description
        add_session_state_to_context := some ov.add_session_state_to_context
        add_dependencies_to_context := some ov.add_dependencies_to_context
        add_memories_to_context := some ov.add_memories_to_context }
    Except.ok (attachOptionals agent ov)

end BaseAgentBuilder

/-! ## Agent configuration constants (`backend/config/constants.py`) -/

/-- The shape of the `*_AGENT_CONFIG` dictionaries in `constants.py`. -/
structure AgentConstants where
  name : String
  description : String
  instructions : List String
  db_table : String
  show_tool_calls : Bool
  add_datetime_to_context : Bool
  deriving Repr, DecidableEq

def CONVERSATION_AGENT_CONFIG : AgentConstants :=
  { name := "Agno Smart Assistant"
    description := "Main conversational agent with tool access"
    instructions :=
      [ "You are a helpful AI assistant powered by Agno."
      , "You have access to tools and can perform tasks."
      , "Always be concise, clear, and helpful." ]
    db_table := "agno-smart-assistant"
    show_tool_calls := true
    add_datetime_to_context := true }

def RESEARCH_AGENT_CONFIG : AgentConstants :=
  { name := "Research Agent"
    description := "Specialized agent for research and analysis"
    instructions :=
      [ "You are a research specialist."
      , "Help users find, analyze, and synthesize information."
      , "Provide well-structured and detailed responses." ]
    db_table := "research-agent"
    show_tool_calls := true
    add_datetime_to_context := false }

def ASSIST_AGENT_CONFIG : AgentConstants :=
  { name := "Agno Assist"
    description := "Documentation assistant using RAG for Agno framework questions"
    instructions :=
      [ "You help answer questions about the Agno framework."
      , "Search your knowledge before answering the question."
      , "Provide accurate answers grounded in the documentation."
      , "If information is not in the documentation, say so clearly." ]
    db_table := "assist-agent"
    show_tool_calls := true
    add_datetime_to_context := true }

/-! ## Agent factories (`backend/agents/*.py`) -/

/-- `create_conversation_agent`: constructs the `Agent` directly from
`CONVERSATION_AGENT_CONFIG`, a `SqliteDb` on the configured file and
`get_model()`; no `tools` and no `knowledge` argument is passed. -/
def create_conversation_agent (config : AppConfig) : Except String Agent :=
  match get_model none none config with
  | Except.error e => Except.error e
  | Except.ok model =>
    Except.ok
      { id := some CONVERSATION_AGENT_CONFIG.db_table
        name := CONVERSATION_AGENT_CONFIG.name
        model := model
        db := { db_file := config.database.db_file }
        description := CONVERSATION_AGENT_CONFIG.description
        instructions := CONVERSATION_AGENT_CONFIG.instructions
        add_history_to_context := some true
        num_history_runs := some 3
        markdown := some true }

/-- `create_research_agent`: like the conversation agent but with one
`MCPTools(transport="streamable-http", url=config.agent.mcp_url)` tool
(`getattr(config.agent, "mcp_url", ...)` always finds the attribute). -/
def create_research_agent (config : AppConfig) : Except String Agent :=
  match get_model none none config with
  | Except.error e => Except.error e
  | Except.ok model =>
    Except.ok
      { id := some RESEARCH_AGENT_CONFIG.db_table
        name := RESEARCH_AGENT_CONFIG.name
        model := model
        db := { db_file := config.database.db_file }
        tools := some [Tool.mcpTools "streamable-http" config.agent.mcp_url]
        description := RESEARCH_AGENT_CONFIG.description
        instructions := RESEARCH_AGENT_CONFIG.instructions
        add_history_to_context := some true
        num_history_runs := some 3
        markdown := some true }

/-- The `Knowledge(vector_db=LanceDb(...))` value built inside the `try`
block of `create_assist_agent` when the external constructors succeed. -/
def assistKnowledge : Knowledge :=
  { vector_db :=
      { uri := "tmp/lancedb"
        table_name := "agno_assist_knowledge"
        search_type := SearchType.hybrid
        embedder := { id := "text-embedding-3-small" } } }

/-- `create_assist_agent`: the knowledge base is built inside a
`try/except Exception` block; the outcome of the external constructor
calls is the explicit argument `knowledgeOutcome`.  On failure the except
branch logs and sets `knowledge = None`, and the agent is built either
way.  `get_model()` is called outside the `try`, so its error still
propagates. -/
def create_assist_agent (config : AppConfig)
    (knowledgeOutcome : Except String Unit) : Except String Agent :=
  let knowledge : Option Knowledge :=
    match knowledgeOutcome with
    | Except.ok _ => some assistKnowledge
    | Except.error _ => none
  match get_model none none config with
  | Except.error e => Except.error e
  | Except.ok model =>
    Except.ok
      { id := some ASSIST_AGENT_CONFIG.db_table
        name := ASSIST_AGENT_CONFIG.name
        model := model
        db := { db_file := config.database.db_file }
        knowledge := knowledge
        description := ASSIST_AGENT_CONFIG.description
        instructions := ASSIST_AGENT_CONFIG.instructions
        add_history_to_context := some true
        num_history_runs := some 3
        add_datetime_to_context := some true
        markdown := some true }

/-! ## Runtime assembler (`backend/core/runtime.py`) -/

/-- `AgentOS(name=..., description=..., version=..., agents=[...])`. -/
structure AgentOS where
  name : String
  description : String
  version : String
  agents : List Agent
  deriving Repr, DecidableEq

/-- `create_runtime`: builds the three agents with their factory functions
and registers them, in order, in one `AgentOS`.  Any exception from a
factory propagates (there is no handler in `create_runtime`). -/
def create_runtime (config : AppConfig)
    (knowledgeOutcome : Except String Unit) : Except String AgentOS :=
  match create_conversation_agent config with
  | Except.error e => Except.error e
  | Except.ok conversation_agent =>
    match create_research_agent config with
    | Except.error e => Except.error e
    | Except.ok research_agent =>
      match create_assist_agent config knowledgeOutcome with
      | Except.error e => Except.error e
      | Except.ok assist_agent =>
        Except.ok
          { name := APP_NAME
            description := APP_DESCRIPTION
            version := APP_VERSION
            agents := [conversation_agent, research_agent, assist_agent] }

/-! ## Masked configuration dump (`AppConfig.to_dict`) -/

/-- The `"app"` section of `to_dict`. -/
structure AppSection where
  name : String
  version : String
  description : String
  deriving Repr, DecidableEq

/-- A `{"api_key": ...}` section of `to_dict`. -/
structure KeySection where
  api_key : String
  deriving Repr, DecidableEq

/-- The `"agent"` section of `to_dict`. -/
structure AgentSection where
  model_id : String
  mcp_url : String
  deriving Repr, DecidableEq

/-- The nested dictionary returned by `AppConfig.to_dict`. -/
structure ConfigDict where
  app : AppSection
  model : ModelConfig
  openai : KeySection
  anthropic : KeySection
  database : DatabaseConfig
  agent : AgentSection
  server : ServerConfig
  deriving Repr, DecidableEq

/-- The masking expression of `to_dict`:
`"***" + (api_key[-4:] if api_key else "NOT SET")`; Python's `s[-4:]` is
the suffix of length `min 4 s.length`, i.e. `String.takeRight`. -/
def maskKey (api_key : String) : String :=
  "***" ++ (if api_key ≠ "" then api_key.takeRight 4 else "NOT SET")

/-- `AppConfig.to_dict`: the nested display dictionary, with both API keys
masked by `maskKey` and every other field copied verbatim. -/
def AppConfig.to_dict (c : AppConfig) : ConfigDict :=
  { app := { name := c.name, version := c.version, description := c.description }
    model := { provider := c.model.provider, model_id := c.model.model_id }
    openai := { api_key := maskKey c.openai.api_key }
    anthropic := { api_key := maskKey c.anthropic.api_key }
    database := { db_file := c.database.db_file, vector_db_file := c.database.vector_db_file }
    agent := { model_id := c.agent.model_id, mcp_url := c.agent.mcp_url }
    server := { host := c.server.host, port := c.server.port
                reload := c.server.reload, log_level := c.server.log_level } }

/-! ## Knowledge ingestion (`backend/load_knowledge.py`)

The chunk/embed/store implementation behind `Knowledge.add_content` lives
in the external `agno` library; only its caller `load_documentation`,
which passes `skip_if_exists=True`, is part of this repository.  The
pipeline is therefore modelled from the spec. -/

/-- Modelled from the spec: one stored knowledge chunk — source
identifier, chunk text, its embedding and derived keyword tokens
(§3 KnowledgeChunk).  The chunking and embedding computations themselves
are opaque parameters. -/
structure KnowledgeChunk where
  source : String
  text : String
  embedding : List Int
  tokens : List String
  deriving Repr, DecidableEq

/-- Modelled from the spec: the knowledge index, the ordered store of all
ingested chunks (insertion order is kept for tie-breaking in §4.3). -/
structure KnowledgeIndex where
  chunks : List KnowledgeChunk
  deriving Repr, DecidableEq

/-- Modelled from the spec: a source is present when some stored chunk
carries its identifier (§4.3 "source already present"). -/
def sourcePresent (idx : KnowledgeIndex) (source : String) : Bool :=
  idx.chunks.any (fun c => c.source = source)

/-- Modelled from the spec (§4.3 `ingest(source, force=false)`), the
operation behind `Knowledge.add_content` with `skip_if_exists` semantics:
if the source is already present and `force` is false, return the index
unchanged with zero work; otherwise split the fetched content into
chunks, embed and tokenize each, and append them to the index.  The
second component counts the chunks processed (the work performed). -/
def ingest (embed : String → List Int) (tokenize : String → List String)
    (chunkSplit : String → List String) (idx : KnowledgeIndex)
    (source content : String) (force : Bool) : KnowledgeIndex × Nat :=
  if sourcePresent idx source && !force then
    (idx, 0)
  else
    let pieces := chunkSplit content
    let newChunks := pieces.map (fun t =>
      { source := source, text := t, embedding := embed t, tokens := tokenize t })
    ({ chunks := idx.chunks ++ newChunks }, pieces.length)

/-- `load_documentation`: calls `add_content` for the one documentation
source with `skip_if_exists=True` (that is, `force = false`). -/
def load_documentation (embed : String → List Int)
    (tokenize : String → List String) (chunkSplit : String → List String)
    (idx : KnowledgeIndex) (content : String) : KnowledgeIndex × Nat :=
  ingest embed tokenize chunkSplit idx "https://docs.agno.com/llms-full.txt" content false

/-! ## Concrete instances used to evaluate the development -/

/-- A configuration as loaded with `MODEL_PROVIDER=openai` and only
`OPENAI_API_KEY` set, all other variables left at their defaults. -/
def exampleConfig : AppConfig :=
  { openai := { api_key := "sk-test-abcd" }
    anthropic := { api_key := "" }
    model := { provider := "openai", model_id := "gpt-4" }
    database := { db_file := DEFAULT_DB_FILE, vector_db_file := DEFAULT_VECTOR_DB_FILE }
    agent := { model_id := DEFAULT_MODEL_ID, mcp_url := DEFAULT_MCP_URL }
    server := { host := DEFAULT_HOST, port := 8000, reload := true, log_level := "info" } }

/-- A configuration whose selected provider is `openai` while only the
Anthropic key is set: the credential of the selected provider is empty. -/
def selectedKeyMissingConfig : AppConfig :=
  { openai := { api_key := "" }
    anthropic := { api_key := "sk-ant-wxyz" }
    model := { provider := "openai", model_id := "gpt-4" }
    database := { db_file := DEFAULT_DB_FILE, vector_db_file := DEFAULT_VECTOR_DB_FILE }
    agent := { model_id := DEFAULT_MODEL_ID, mcp_url := DEFAULT_MCP_URL }
    server := { host := DEFAULT_HOST, port := 8000, reload := true, log_level := "info" } }

/-- The merge policy in the spec's words, for comparison with `build`:
every optional field independently falls back to its named default exactly
when the override is `None`; the five attach-style optionals are carried
over unchanged (absent stays absent).  `defaultModel` stands for the
result of the `get_model()` default resolution. -/
def specMergedAgent (req : BuildRequired) (ov : BuildOverrides)
    (defaultModel : ModelClient) (config : AppConfig) : Agent :=
  { name := req.name
    model := ov.model.getD defaultModel
    db := ov.db.getD { db_file := config.database.db_file, session_table := some req.db_table }
    tools := some (ov.tools.getD [])
    instructions := req.instructions
    description := req.description
    add_session_state_to_context := some ov.add_session_state_to_context
    add_dependencies_to_context := some ov.add_dependencies_to_context
    add_memories_to_context := some ov.add_memories_to_context
    vector_db := ov.vector_db
    knowledge_base := ov.knowledge_base
    embeddings := ov.embeddings
    users := ov.users
    memory_config := ov.memory_config }

/-- A `build` request carrying an empty store key. -/
def emptyKeyRequest : BuildRequired :=
  { name := "Empty Key Agent"
    description := "built with an empty store key"
    instructions := ["demo"]
    db_table := "" }

/-- A `build` request reusing a store key already registered by the
assembled runtime against the same backing file. -/
def dupKeyRequest : BuildRequired :=
  { name := "Duplicate Key Agent"
    description := "reuses the conversation agent store key"
    instructions := ["demo"]
    db_table := "agno-smart-assistant" }

/-- Required arguments of a concrete `build` call. -/
def exampleRequired : BuildRequired :=
  { name := "Custom Agent"
    description := "Custom setup"
    instructions := ["Be custom"]
    db_table := "custom_sessions" }

/-- Overrides of a concrete `build` call: an explicit model, an explicitly
empty tool list and an explicit user list; everything else omitted. -/
def exampleOverrides : BuildOverrides :=
  { model := some (ModelClient.claude "claude-3-5-sonnet-20241022" "sk-ant-wxyz")
    tools := some []
    users := some ["alice"] }

/-- The descriptor `build exampleRequired exampleOverrides exampleConfig`
produces. -/
def exampleBuiltAgent : Agent :=
  specMergedAgent exampleRequired exampleOverrides
    (ModelClient.claude "claude-3-5-sonnet-20241022" "sk-ant-wxyz") exampleConfig

/-- Required arguments of a `build` call whose only override is an
explicitly empty tool list. -/
def emptyToolsRequired : BuildRequired :=
  { name := "Empty Tools Agent"
    description := "overrides tools with an empty list"
    instructions := []
    db_table := "empty_tools_sessions" }

/-- Overrides consisting of exactly an explicitly empty tool list. -/
def emptyToolsOverrides : BuildOverrides :=
  { tools := some [] }

/-- The descriptor `build emptyToolsRequired emptyToolsOverrides
exampleConfig` produces (the model falls back to the config default). -/
def emptyToolsAgent : Agent :=
  specMergedAgent emptyToolsRequired emptyToolsOverrides
    (ModelClient.openAIChat "gpt-4" "sk-test-abcd") exampleConfig

/-- The runtime assembled from `exampleConfig` with a successful
knowledge-base construction. -/
def exampleRuntime : AgentOS :=
  match create_runtime exampleConfig (Except.ok ()) with
  | Except.ok os => os
  | Except.error _ => { name := "", description := "", version := "", agents := [] }

/-! ## Helper lemmas -/

theorem setIfSome_none {α : Type} (x : Option α) : setIfSome none x = x := by
  cases x <;> rfl

/-- Everything `build` guarantees about a descriptor it returns: the
descriptor is exactly the spec-side merge of the request against the
overrides, a supplied model override is kept, and an omitted model is the
result of the default `get_model()` resolution. -/
theorem build_ok_spec (req : BuildRequired) (ov : BuildOverrides) (cfg : AppConfig)
    (a : Agent) (h : BaseAgentBuilder.build req ov cfg = Except.ok a) :
    a = specMergedAgent req ov a.model cfg
    ∧ (∀ m, ov.model = some m → a.model = m)
    ∧ (ov.model = none → get_model none none cfg = Except.ok a.model) := by
  unfold BaseAgentBuilder.build at h
  revert h
  cases hm : ov.model with
  | some m =>
    intro h
    simp only [Except.ok.injEq] at h
    subst h
    refine ⟨?_, ?_, ?_⟩
    · cases hd : ov.db <;> cases ht : ov.tools <;>
        simp [attachOptionals, specMergedAgent, setIfSome_none, hm, hd, ht]
    · intro m' hm'
      cases hm'
      rfl
    · intro hn
      cases hn
  | none =>
    cases hg : get_model none none cfg with
    | error e =>
      intro h
      cases h
    | ok fm =>
      intro h
      simp only [Except.ok.injEq] at h
      subst h
      refine ⟨?_, ?_, ?_⟩
      · cases hd : ov.db <;> cases ht : ov.tools <;>
          simp [attachOptionals, specMergedAgent, setIfSome_none, hm, hd, ht]
      · intro m' hm'
        cases hm'
      · intro _
        rfl

/-! ## Claim theorems -/

/-- C1: for every required-args record and overrides record, a descriptor
returned by `build` keeps every supplied (non-`None`) override and
substitutes the documented default for every omitted (`None`) field —
`None` is the only trigger for default substitution, so it equals the
spec-side merge `specMergedAgent`; in particular an explicitly empty tool
list stays an empty tool set. -/
theorem build_merges_override_or_default (req : BuildRequired) (ov : BuildOverrides)
    (cfg : AppConfig) (a : Agent) (h : BaseAgentBuilder.build req ov cfg = Except.ok a) :
    a = specMergedAgent req ov a.model cfg
    ∧ (∀ m, ov.model = some m → a.model = m)
    ∧ (ov.model = none → get_model none none cfg = Except.ok a.model) :=
  build_ok_spec req ov cfg a h

/-- Witness for C1: a concrete `build` call with a model override, an
explicitly empty tool list and a user list. -/
theorem build_merges_override_or_default_witness :
    exampleBuiltAgent = specMergedAgent exampleRequired exampleOverrides
      exampleBuiltAgent.model exampleConfig
    ∧ (∀ m, exampleOverrides.model = some m → exampleBuiltAgent.model = m)
    ∧ (exampleOverrides.model = none →
        get_model none none exampleConfig = Except.ok exampleBuiltAgent.model) :=
  build_merges_override_or_default exampleRequired exampleOverrides exampleConfig
    exampleBuiltAgent rfl

/-- C2 counterexample: a configuration selecting `openai` with an empty
OpenAI key and a non-empty Anthropic key passes the `__post_init__`
validation, and `get_model` then returns an OpenAI client carrying the
empty credential instead of failing: config loading succeeding does not
make the selected provider's key non-empty. -/
theorem config_load_accepts_empty_selected_credential :
    AppConfig.validateKeys selectedKeyMissingConfig = Except.ok selectedKeyMissingConfig
    ∧ get_model none none selectedKeyMissingConfig =
        Except.ok (ModelClient.openAIChat "gpt-4" "") :=
  ⟨rfl, rfl⟩

/-- C2 (amended): the credential validation at config load only requires
that not both API keys are empty; whenever loading succeeds, at least one
of the two keys is non-empty (the selected provider's own key may still be
empty, and `get_model` performs no credential check). -/
theorem config_load_requires_some_api_key (c c' : AppConfig)
    (h : AppConfig.validateKeys c = Except.ok c') :
    ¬(c.openai.api_key = "" ∧ c.anthropic.api_key = "") := by
  intro hk
  simp [AppConfig.validateKeys, hk] at h

/-- Witness for the amended C2: the example configuration loads and indeed
has a non-empty OpenAI key. -/
theorem config_load_requires_some_api_key_witness :
    ¬(exampleConfig.openai.api_key = "" ∧ exampleConfig.anthropic.api_key = "") :=
  config_load_requires_some_api_key exampleConfig exampleConfig rfl

/-- C3: when the resolved provider tag lies outside {openai, anthropic},
`get_model` raises the configuration error naming the offending value and
the supported set; when it lies inside, `get_model` returns a model client
and raises nothing. -/
theorem get_model_enumerates_providers (p mid : Option String) (cfg : AppConfig) :
    (orDefault p cfg.model.provider ≠ "openai" →
      orDefault p cfg.model.provider ≠ "anthropic" →
      get_model p mid cfg = Except.error ("❌ Unsupported provider: " ++
        orDefault p cfg.model.provider ++ "\n   Supported: 'openai', 'anthropic'"))
    ∧ ((orDefault p cfg.model.provider = "openai" ∨
        orDefault p cfg.model.provider = "anthropic") →
      ∃ m, get_model p mid cfg = Except.ok m) := by
  constructor
  · intro h1 h2
    simp [get_model, h1, h2]
  · rintro (h | h)
    · exact ⟨ModelClient.openAIChat (orDefault mid cfg.model.model_id) cfg.openai.api_key,
        by simp [get_model, h]⟩
    · exact ⟨ModelClient.claude (orDefault mid cfg.model.model_id) cfg.anthropic.api_key,
        by simp [get_model, h]⟩

/-- Witness for C3: an unknown provider `gemini` produces the error naming
it, and the in-set provider `anthropic` resolves to a client. -/
theorem get_model_enumerates_providers_witness :
    get_model (some "gemini") none exampleConfig =
      Except.error ("❌ Unsupported provider: gemini\n   Supported: 'openai', 'anthropic'")
    ∧ ∃ m, get_model (some "anthropic") none exampleConfig = Except.ok m :=
  ⟨(get_model_enumerates_providers (some "gemini") none exampleConfig).1
      (by decide) (by decide),
   (get_model_enumerates_providers (some "anthropic") none exampleConfig).2
      (Or.inr (by decide))⟩

/-- C4 counterexample: `build` called with an empty `store_key`
(`db_table = ""`) does not raise — it returns a descriptor whose store
table is the empty string. -/
theorem build_accepts_empty_store_key :
    BaseAgentBuilder.build emptyKeyRequest {} exampleConfig =
      Except.ok (specMergedAgent emptyKeyRequest {}
        (ModelClient.openAIChat "gpt-4" "sk-test-abcd") exampleConfig) :=
  rfl

/-- C4 (amended): `build` performs no store-key validation at all — for
every request (empty or duplicate `db_table` included) it returns a
descriptor whenever the model resolves (a model override is supplied or
the default `get_model()` succeeds); duplicate keys against the same
backing file are not detected at assembly time. -/
theorem build_never_validates_store_key (req : BuildRequired) (ov : BuildOverrides)
    (cfg : AppConfig)
    (h : ov.model.isSome = true ∨ ∃ m, get_model none none cfg = Except.ok m) :
    ∃ a, BaseAgentBuilder.build req ov cfg = Except.ok a := by
  unfold BaseAgentBuilder.build
  cases hm : ov.model with
  | some m => exact ⟨_, rfl⟩
  | none =>
    rcases h with hs | ⟨m, hg⟩
    · rw [hm] at hs
      cases hs
    · rw [hg]
      exact ⟨_, rfl⟩

/-- Witness for the amended C4: `build` succeeds on a request that reuses
the conversation agent's store key against the same backing file. -/
theorem build_never_validates_store_key_witness :
    ∃ a, BaseAgentBuilder.build dupKeyRequest {} exampleConfig = Except.ok a :=
  build_never_validates_store_key dupKeyRequest {} exampleConfig
    (Or.inr ⟨ModelClient.openAIChat "gpt-4" "sk-test-abcd", rfl⟩)

/-- C5: when the knowledge-base construction inside `create_assist_agent`
fails with any error, the assist agent descriptor is still produced (the
error does not propagate) and carries no knowledge pipeline. -/
theorem assist_agent_survives_knowledge_failure (cfg : AppConfig) (err : String)
    (m : ModelClient) (h : get_model none none cfg = Except.ok m) :
    (create_assist_agent cfg (Except.error err)).map Agent.knowledge = Except.ok none
    ∧ (create_assist_agent cfg (Except.error err)).map Agent.name =
        Except.ok "Agno Assist" := by
  unfold create_assist_agent
  rw [h]
  exact ⟨rfl, rfl⟩

/-- Witness for C5: a concrete failing knowledge construction on the
example configuration still yields the assist agent without knowledge. -/
theorem assist_agent_survives_knowledge_failure_witness :
    (create_assist_agent exampleConfig (Except.error "embedding backend unavailable")).map
        Agent.knowledge = Except.ok none
    ∧ (create_assist_agent exampleConfig (Except.error "embedding backend unavailable")).map
        Agent.name = Except.ok "Agno Assist" :=
  assist_agent_survives_knowledge_failure exampleConfig "embedding backend unavailable"
    (ModelClient.openAIChat "gpt-4" "sk-test-abcd") rfl

/-- C7: evaluating `create_conversation_agent` on the example
configuration shows the conversation agent is built with NO tools argument
(empty tool set, contradicting the documented full tool set), while the
other two claimed properties hold: no knowledge pipeline and a history
window of 3. -/
theorem conversation_agent_built_without_tools :
    (create_conversation_agent exampleConfig).map
        (fun a => (a.tools, a.knowledge, a.num_history_runs))
      = Except.ok ((none : Option (List Tool)), (none : Option Knowledge),
          (some 3 : Option Nat)) :=
  rfl

/-- C9: `get_model` treats an empty-string override for provider and
model id as absent (truthiness fallback to the config default), while
`build` keeps an explicitly empty override as given — an empty tool list
stays empty, with `None` the only default trigger. -/
theorem empty_string_fallback_contrast (cfg : AppConfig) (req : BuildRequired)
    (ov : BuildOverrides) (a : Agent)
    (h : BaseAgentBuilder.build req ov cfg = Except.ok a) (ht : ov.tools = some []) :
    get_model (some "") (some "") cfg = get_model none none cfg
    ∧ a.tools = some [] := by
  constructor
  · simp [get_model, orDefault]
  · have hs := (build_ok_spec req ov cfg a h).1
    rw [hs]
    simp [specMergedAgent, ht]

/-- Witness for C9: the concrete empty-tool-list build and the empty
string overrides on the example configuration. -/
theorem empty_string_fallback_contrast_witness :
    get_model (some "") (some "") exampleConfig = get_model none none exampleConfig
    ∧ emptyToolsAgent.tools = some [] :=
  empty_string_fallback_contrast exampleConfig emptyToolsRequired emptyToolsOverrides
    emptyToolsAgent rfl rfl

/-- C6: whenever assembly succeeds, the runtime registry holds exactly
three agent descriptors, their store keys (descriptor ids, the `db_table`
constants) are pairwise distinct, and all three reference the one
configured backing file. -/
theorem runtime_three_agents_distinct_keys_shared_db (cfg : AppConfig)
    (kn : Except String Unit) (os : AgentOS)
    (h : create_runtime cfg kn = Except.ok os) :
    os.agents.length = 3
    ∧ os.agents.map Agent.id =
        [some "agno-smart-assistant", some "research-agent", some "assist-agent"]
    ∧ (os.agents.map Agent.id).Nodup
    ∧ ∀ a ∈ os.agents, a.db.db_file = cfg.database.db_file := by
  unfold create_runtime create_conversation_agent create_research_agent
    create_assist_agent at h
  revert h
  cases hg : get_model none none cfg with
  | error e =>
    intro h
    cases h
  | ok m =>
    intro h
    simp only [Except.ok.injEq] at h
    subst h
    refine ⟨rfl, rfl, ?_, ?_⟩
    · show ([some "agno-smart-assistant", some "research-agent",
          some "assist-agent"] : List (Option String)).Nodup
      decide
    intro a ha
    simp only [List.mem_cons, List.not_mem_nil, or_false] at ha
    rcases ha with rfl | rfl | rfl <;> rfl

/-- Witness for C6: the runtime assembled from the example configuration. -/
theorem runtime_three_agents_distinct_keys_shared_db_witness :
    exampleRuntime.agents.length = 3
    ∧ exampleRuntime.agents.map Agent.id =
        [some "agno-smart-assistant", some "research-agent", some "assist-agent"]
    ∧ (exampleRuntime.agents.map Agent.id).Nodup
    ∧ ∀ a ∈ exampleRuntime.agents, a.db.db_file = exampleConfig.database.db_file :=
  runtime_three_agents_distinct_keys_shared_db exampleConfig (Except.ok ())
    exampleRuntime rfl

/-- C8 (spec-modelled): ingestion with `force = false` (the
`skip_if_exists=True` call in `load_documentation`) is idempotent — a
second run returns the index of the first run unchanged, with zero chunks
processed, so the chunk set and embeddings are content-identical to a
single run. -/
theorem ingest_idempotent_unforced (embed : String → List Int)
    (tokenize : String → List String) (chunkSplit : String → List String)
    (idx : KnowledgeIndex) (source content : String) :
    ingest embed tokenize chunkSplit
        (ingest embed tokenize chunkSplit idx source content false).1 source content false
      = ((ingest embed tokenize chunkSplit idx source content false).1, 0)
    ∧ load_documentation embed tokenize chunkSplit
        (load_documentation embed tokenize chunkSplit idx content).1 content
      = ((load_documentation embed tokenize chunkSplit idx content).1, 0) := by
  have main : ∀ (s : String),
      ingest embed tokenize chunkSplit
          (ingest embed tokenize chunkSplit idx s content false).1 s content false
        = ((ingest embed tokenize chunkSplit idx s content false).1, 0) := by
    intro s
    by_cases hp : sourcePresent idx s = true
    · have h1 : ingest embed tokenize chunkSplit idx s content false = (idx, 0) := by
        unfold ingest
        simp [hp]
      rw [h1]
      unfold ingest
      simp [hp]
    · have hp' : sourcePresent idx s = false := by
        simpa using hp
      have h1 : ingest embed tokenize chunkSplit idx s content false
          = ({ chunks := idx.chunks ++ (chunkSplit content).map (fun t =>
                { source := s, text := t, embedding := embed t, tokens := tokenize t }) },
             (chunkSplit content).length) := by
        unfold ingest
        simp [hp']
      rw [h1]
      unfold ingest
      cases hc : chunkSplit content with
      | nil =>
        simp only [hc, List.map_nil, List.append_nil, List.length_nil]
        simp [hp']
      | cons t ts =>
        simp [sourcePresent, hc]
  exact ⟨main source, main "https://docs.agno.com/llms-full.txt"⟩

/-- C10: `to_dict` depends on each provider's API key only through
whether the key is empty and, when non-empty, its last four characters:
two configurations agreeing on everything else and on those observations
of both keys produce identical dictionaries, so a full key is never
exposed. -/
theorem to_dict_depends_only_on_masked_keys (c : AppConfig) (k1 k1' k2 k2' : String)
    (h1 : k1 = "" ↔ k1' = "") (h2 : k1.takeRight 4 = k1'.takeRight 4)
    (h3 : k2 = "" ↔ k2' = "") (h4 : k2.takeRight 4 = k2'.takeRight 4) :
    AppConfig.to_dict { c with openai := { api_key := k1 }, anthropic := { api_key := k2 } }
      = AppConfig.to_dict { c with openai := { api_key := k1' }, anthropic := { api_key := k2' } } := by
  have hm : ∀ (x y : String), (x = "" ↔ y = "") → x.takeRight 4 = y.takeRight 4 →
      maskKey x = maskKey y := by
    intro x y hiff htr
    unfold maskKey
    by_cases hx : x = ""
    · simp [hx, hiff.mp hx]
    · have hy : y ≠ "" := fun hy => hx (hiff.mpr hy)
      simp [hx, hy, htr]
  simp only [AppConfig.to_dict]
  rw [hm k1 k1' h1 h2, hm k2 k2' h3 h4]

/-- Witness for C10: two distinct non-empty OpenAI keys sharing their
last four characters yield the same masked dictionary. -/
theorem to_dict_depends_only_on_masked_keys_witness :
    ("sk-live-abcd" = "" ↔ "sk-test-abcd" = "")
    ∧ AppConfig.to_dict
        { exampleConfig with
          openai := { api_key := "sk-live-abcd" }
          anthropic := { api_key := "" } }
      = AppConfig.to_dict
        { exampleConfig with
          openai := { api_key := "sk-test-abcd" }
          anthropic := { api_key := "" } } :=
  ⟨by decide,
   to_dict_depends_only_on_masked_keys exampleConfig "sk-live-abcd" "sk-test-abcd" "" ""
     (by decide) (by decide) Iff.rfl rfl⟩

end AgnoAssistant
